import Mathlib

/-!
Verification of the SMHI forecast aggregation engine (`smhi/smhi_lib.py`).

The aggregation engine is pure computation over an already-parsed JSON
document, so it is embedded shallowly:

* Python floats are modelled as rationals (`ℚ`); Python's `round`, which
  rounds halves to even, is modelled exactly by `rhe`.
* `datetime` values are modelled by `PyDateTime`: the absolute instant in
  seconds together with the day-of-month and hour-of-day components read by
  the code.  `timedelta.seconds` (the sub-day component of a difference)
  is modelled by `tdSeconds`.
* A raw API document is an optional `timeSeries` list of raw time points
  (`none` models a document without the `timeSeries` key).
* Python exceptions (`KeyError`, `UnboundLocalError` for a parameter that
  was never assigned) are modelled by `Option`: `none` is a raised error.
* The function-local variables of `_get_all_forecast_from_api` that the
  parameter loop assigns are modelled by `ParamState`; crucially the state
  is carried from one record to the next, exactly as Python locals are.
-/

/-- A timezone-aware `datetime`: absolute instant in seconds plus the
day-of-month and hour-of-day components (in the timestamp's own offset)
that the code reads. -/
structure PyDateTime where
  epoch : ℤ
  day : ℕ
  hour : ℕ
deriving DecidableEq, Repr, Inhabited

/-- `(a - b).seconds` on Python datetimes: the sub-day seconds component of
the timedelta, always in `[0, 86400)`. -/
def tdSeconds (a b : PyDateTime) : ℤ :=
  (a.epoch - b.epoch) % 86400

/-- Python `int(x)` on a numeric value: truncation toward zero. -/
def pyInt (q : ℚ) : ℤ :=
  q.num.tdiv q.den

/-- Python `round(x)`: round half to even, to an integer. -/
def rhe (q : ℚ) : ℤ :=
  if q - ⌊q⌋ < 1 / 2 then ⌊q⌋
  else if 1 / 2 < q - ⌊q⌋ then ⌊q⌋ + 1
  else if ⌊q⌋ % 2 = 0 then ⌊q⌋ else ⌊q⌋ + 1

/-- Python `round(x, 1)`. -/
def round1 (q : ℚ) : ℚ :=
  (rhe (q * 10) : ℚ) / 10

/-- Python `round(x, 2)`. -/
def round2 (q : ℚ) : ℚ :=
  (rhe (q * 100) : ℚ) / 100

/-- The octa-to-cloudiness conversion of `_get_all_forecast_from_api`:
`round(100 * octa / 8)` for octas in `[0, 8]`, else `100`. -/
def cloudinessOfOcta (octa : ℤ) : ℤ :=
  if 0 ≤ octa ∧ octa ≤ 8 then rhe ((100 * octa : ℚ) / 8) else 100

/-- The `SmhiForecast` value object (its sixteen constructor fields). -/
structure SmhiForecast where
  temperature : ℚ
  temperature_max : ℚ
  temperature_min : ℚ
  humidity : ℤ
  pressure : ℚ
  thunder : ℤ
  cloudiness : ℤ
  precipitation : ℤ
  wind_direction : ℤ
  wind_speed : ℚ
  horizontal_visibility : ℚ
  wind_gust : ℚ
  mean_precipitation : ℚ
  total_precipitation : ℚ
  symbol : ℤ
  valid_time : PyDateTime
deriving DecidableEq, Repr, Inhabited

/-- One `{name, values}` parameter record; only `values[0]` is ever read,
so only that value is modelled. -/
structure RawParam where
  name : String
  value : ℚ
deriving DecidableEq, Repr

/-- One element of `timeSeries`: a parsed `validTime` plus parameters. -/
structure RawTimePoint where
  validTime : PyDateTime
  parameters : List RawParam
deriving DecidableEq, Repr

/-- The fetched JSON document; `timeSeries := none` models a document
without the `timeSeries` key (reading it raises `KeyError`). -/
structure ApiResult where
  timeSeries : Option (List RawTimePoint)
deriving DecidableEq, Repr

/-- The function-local variables of `_get_all_forecast_from_api` assigned
by the parameter loop; `none` means "never assigned so far" (reading it
would raise `UnboundLocalError`).  Python locals persist across loop
iterations, so this state is threaded through the whole record loop. -/
structure ParamState where
  temperature : Option ℚ := none
  humidity : Option ℤ := none
  pressure : Option ℚ := none
  thunder : Option ℤ := none
  cloudiness : Option ℤ := none
  symbol : Option ℤ := none
  precipitation : Option ℤ := none
  mean_precipitation : Option ℚ := none
  wind_speed : Option ℚ := none
  wind_direction : Option ℤ := none
  horizontal_visibility : Option ℚ := none
  wind_gust : Option ℚ := none
deriving DecidableEq, Repr

/-- The fresh state at function entry: nothing assigned yet. -/
def initialParams : ParamState := {}

/-- One iteration of the parameter loop: the `if/elif` chain keyed on
`param["name"]`; an unrecognised name leaves the state untouched. -/
def processParam (st : ParamState) (p : RawParam) : ParamState :=
  if p.name = "t" then { st with temperature := some p.value }
  else if p.name = "r" then { st with humidity := some (pyInt p.value) }
  else if p.name = "msl" then { st with pressure := some p.value }
  else if p.name = "tstm" then { st with thunder := some (pyInt p.value) }
  else if p.name = "tcc_mean" then
    { st with cloudiness := some (cloudinessOfOcta (pyInt p.value)) }
  else if p.name = "Wsymb2" then { st with symbol := some (pyInt p.value) }
  else if p.name = "pcat" then { st with precipitation := some (pyInt p.value) }
  else if p.name = "pmean" then { st with mean_precipitation := some p.value }
  else if p.name = "ws" then { st with wind_speed := some p.value }
  else if p.name = "wd" then { st with wind_direction := some (pyInt p.value) }
  else if p.name = "vis" then { st with horizontal_visibility := some p.value }
  else if p.name = "gust" then { st with wind_gust := some p.value }
  else st

/-- Constructing the `SmhiForecast` for one record: every variable must
have been assigned at some point (else `UnboundLocalError`, i.e. `none`);
`temperature_max`/`temperature_min` start equal to `temperature`,
`mean_precipitation` is rounded to one decimal and `total_precipitation`
is `round(mean_precipitation * elapsed_hours, 2)`. -/
def buildSample (st : ParamState) (vt : PyDateTime) (elapsedHours : ℚ) :
    Option SmhiForecast := do
  let temperature ← st.temperature
  let humidity ← st.humidity
  let pressure ← st.pressure
  let thunder ← st.thunder
  let cloudiness ← st.cloudiness
  let symbol ← st.symbol
  let precipitation ← st.precipitation
  let mean_precipitation ← st.mean_precipitation
  let wind_speed ← st.wind_speed
  let wind_direction ← st.wind_direction
  let horizontal_visibility ← st.horizontal_visibility
  let wind_gust ← st.wind_gust
  pure
    { temperature := temperature
      temperature_max := temperature
      temperature_min := temperature
      humidity := humidity
      pressure := pressure
      thunder := thunder
      cloudiness := cloudiness
      precipitation := precipitation
      wind_direction := wind_direction
      wind_speed := wind_speed
      horizontal_visibility := horizontal_visibility
      wind_gust := wind_gust
      mean_precipitation := round1 mean_precipitation
      total_precipitation := round2 (mean_precipitation * elapsedHours)
      symbol := symbol
      valid_time := vt }

/-- `forecasts_ordered[valid_time.day].append(forecast)` on the insertion-
ordered dict, modelled as an association list in insertion order: append to
an existing day's list, or add a new `(day, [f])` entry at the end. -/
def insertSample (od : List (ℕ × List SmhiForecast)) (d : ℕ) (f : SmhiForecast) :
    List (ℕ × List SmhiForecast) :=
  match od with
  | [] => [(d, [f])]
  | (k, l) :: rest =>
      if k = d then (k, l ++ [f]) :: rest else (k, l) :: insertSample rest d f

/-- The record loop of `_get_all_forecast_from_api`: thread the local
variable state, the `last_time` cursor and the ordered dict through the
`timeSeries` list.  The elapsed hours are `(valid_time - last_time).seconds
/ 60 / 60` when `last_time` is set, else the initial `1.0`. -/
def elapsedOf (lastTime : Option PyDateTime) (vt : PyDateTime) : ℚ :=
  match lastTime with
  | none => 1
  | some l => ((tdSeconds vt l : ℤ) : ℚ) / 60 / 60

/-- The record loop of `_get_all_forecast_from_api` proper. -/
def processRecords (st : ParamState) (lastTime : Option PyDateTime)
    (od : List (ℕ × List SmhiForecast)) :
    List RawTimePoint → Option (List (ℕ × List SmhiForecast))
  | [] => some od
  | r :: rest =>
    match buildSample (r.parameters.foldl processParam st) r.validTime
        (elapsedOf lastTime r.validTime) with
    | none => none
    | some f =>
        processRecords (r.parameters.foldl processParam st) (some r.validTime)
          (insertSample od r.validTime.day f) rest

/-- `_get_all_forecast_from_api`: group the built samples by the
day-of-month of `valid_time`, days in first-occurrence order. -/
def getAllForecastFromApi (api : ApiResult) :
    Option (List (ℕ × List SmhiForecast)) :=
  match api.timeSeries with
  | none => none
  | some ts => processRecords initialParams none [] ts

/-- One step of the per-day scan loop of `_get_forecast`, over the state
`(total_precipitation, forecast_temp_max, forecast_temp_min, forecast)`:
track extremes, sum per-sample total precipitation, and remember the last
sample whose hour-of-day is 12. -/
def scanStep (acc : ℚ × ℚ × ℚ × Option SmhiForecast) (f : SmhiForecast) :
    ℚ × ℚ × ℚ × Option SmhiForecast :=
  (acc.1 + f.total_precipitation,
   if acc.2.1 < f.temperature then f.temperature else acc.2.1,
   if f.temperature < acc.2.2.1 then f.temperature else acc.2.2.1,
   if f.valid_time.hour = 12 then some f else acc.2.2.2)

/-- The full scan of one day group, from the initial state
`(0.0, -100.0, 100.0, None)`. -/
def dayScan (g : List SmhiForecast) : ℚ × ℚ × ℚ × Option SmhiForecast :=
  g.foldl scanStep (0, -100, 100, none)

/-- The daily summary record emitted for one day group: the representative
(last hour-12 sample, or the group's first sample when none) with the
extremes, the summed total precipitation and `total / 24` written into it.
(The code would raise `IndexError` on an empty group; groups built by
`getAllForecastFromApi` are never empty, and `default` stands in.) -/
def daySummary (g : List SmhiForecast) : SmhiForecast :=
  let s := dayScan g
  let forecast := s.2.2.2.getD (g.headD default)
  { forecast with
      temperature_max := s.2.1
      temperature_min := s.2.2.1
      total_precipitation := s.1
      mean_precipitation := s.1 / 24 }

/-- The day loop of `_get_forecast` with its `day_nr` counter: for the
first day group only, first emit the group's first sample unchanged (the
deep-copied current-conditions snapshot), then for every group emit its
daily summary. -/
def dailyLoop : List (ℕ × List SmhiForecast) → ℕ → List SmhiForecast →
    List SmhiForecast
  | [], _, acc => acc
  | (_, g) :: rest, dayNr, acc =>
      dailyLoop rest (dayNr + 1)
        ((if dayNr = 1 then acc ++ [g.headD default] else acc) ++ [daySummary g])

/-- `_get_forecast`: build the day groups, then run the day loop. -/
def getForecast (api : ApiResult) : Option (List SmhiForecast) :=
  (getAllForecastFromApi api).map (fun od => dailyLoop od 1 [])

/-- The per-sample rewrite done by `_get_forecast_hour`:
`forecast._total_precipitation = forecast._mean_precipitation`. -/
def hourUpdate (s : SmhiForecast) : SmhiForecast :=
  { s with total_precipitation := s.mean_precipitation }

/-- The nested loop of `_get_forecast_hour`: for every day in order and
every sample in the day, emit the sample with `total_precipitation`
overwritten by its own `mean_precipitation`. -/
def hourLoop (od : List (ℕ × List SmhiForecast)) : List SmhiForecast :=
  od.foldl (fun acc p => p.2.foldl (fun acc2 f => acc2 ++ [hourUpdate f]) acc) []

/-- `_get_forecast_hour`: build the day groups, then flatten them with the
precipitation field overwritten. -/
def getForecastHour (api : ApiResult) : Option (List SmhiForecast) :=
  (getAllForecastFromApi api).map hourLoop

/-- The number of distinct day keys among the records of a `timeSeries`. -/
def distinctDays (ts : List RawTimePoint) : ℕ :=
  (ts.map (fun r => r.validTime.day)).dedup.length

/-- The twelve required parameter names. -/
def requiredNames : List String :=
  ["t", "r", "msl", "tstm", "tcc_mean", "Wsymb2", "pcat", "pmean", "ws", "wd",
   "vis", "gust"]

/-- The loop variable corresponding to a required parameter name, as a
rational (the integer-typed variables are cast); `none` when the variable
is still unassigned, or the name is not one of the twelve. -/
def stateValue (st : ParamState) (nm : String) : Option ℚ :=
  if nm = "t" then st.temperature
  else if nm = "r" then st.humidity.map (fun z => (z : ℚ))
  else if nm = "msl" then st.pressure
  else if nm = "tstm" then st.thunder.map (fun z => (z : ℚ))
  else if nm = "tcc_mean" then st.cloudiness.map (fun z => (z : ℚ))
  else if nm = "Wsymb2" then st.symbol.map (fun z => (z : ℚ))
  else if nm = "pcat" then st.precipitation.map (fun z => (z : ℚ))
  else if nm = "pmean" then st.mean_precipitation
  else if nm = "ws" then st.wind_speed
  else if nm = "wd" then st.wind_direction.map (fun z => (z : ℚ))
  else if nm = "vis" then st.horizontal_visibility
  else if nm = "gust" then st.wind_gust
  else none

/-- The extremes scan of a day group as a standalone fold: maximum of the
temperatures seen, starting from the sentinel initial value. -/
def tempMaxFold (m : ℚ) (g : List SmhiForecast) : ℚ :=
  g.foldl (fun a f => if a < f.temperature then f.temperature else a) m

/-- The extremes scan of a day group as a standalone fold: minimum of the
temperatures seen, starting from the sentinel initial value. -/
def tempMinFold (m : ℚ) (g : List SmhiForecast) : ℚ :=
  g.foldl (fun a f => if f.temperature < a then f.temperature else a) m

/-- The sum of the per-sample `total_precipitation` values of a group. -/
def precipSum (g : List SmhiForecast) : ℚ :=
  (g.map (fun f => f.total_precipitation)).sum

/-- The day keys produced by inserting each record's day in order,
keeping only first occurrences. -/
def keysFold (ks : List ℕ) (ts : List RawTimePoint) : List ℕ :=
  ts.foldl
    (fun ks r => if r.validTime.day ∈ ks then ks else ks ++ [r.validTime.day]) ks

/-- The total number of samples stored in the ordered day dict. -/
def odSize (od : List (ℕ × List SmhiForecast)) : ℕ :=
  (od.map (fun p => p.2.length)).sum

/-- A full parameter list carrying all twelve required names. -/
def mkParams (t r msl tstm tcc wsymb pcat pmean ws wd vis gust : ℚ) :
    List RawParam :=
  [⟨"msl", msl⟩, ⟨"t", t⟩, ⟨"vis", vis⟩, ⟨"wd", wd⟩, ⟨"ws", ws⟩, ⟨"r", r⟩,
   ⟨"tstm", tstm⟩, ⟨"tcc_mean", tcc⟩, ⟨"gust", gust⟩, ⟨"pmean", pmean⟩,
   ⟨"Wsymb2", wsymb⟩, ⟨"pcat", pcat⟩]

/-- A representative complete parameter record: temperature 17 °C,
humidity 80 %, pressure 1010 hPa, thunder 10 %, 4 octas, symbol 1,
category 0, pmean 1.0 mm/h, wind 5 m/s from 180°, visibility 10 km,
gusts 8 m/s. -/
def stdParams : List RawParam := mkParams 17 80 1010 10 4 1 0 1 5 180 10 8

/-- The sample `_get_all_forecast_from_api` builds from `stdParams` at the
first time point (elapsed hours 1.0). -/
def sampleA : SmhiForecast :=
  ⟨17, 17, 17, 80, 1010, 10, 50, 0, 180, 5, 10, 8, 1, 1, 1, ⟨0, 1, 0⟩⟩

/-- One-record document: `stdParams` at midnight of day 1. -/
def exOne : ApiResult := ⟨some [⟨⟨0, 1, 0⟩, stdParams⟩]⟩

/-- Two records exactly 24 hours apart, both with `pmean = 1.0`. -/
def exGap : ApiResult :=
  ⟨some [⟨⟨0, 1, 0⟩, stdParams⟩, ⟨⟨86400, 2, 0⟩, stdParams⟩]⟩

/-- Three chronologically ascending records crossing a month boundary:
day-of-month keys 1, 2, 1 (the third record is 31 days after the first). -/
def exMonth : ApiResult :=
  ⟨some [⟨⟨0, 1, 0⟩, stdParams⟩, ⟨⟨86400, 2, 0⟩, stdParams⟩,
         ⟨⟨2678400, 1, 0⟩, stdParams⟩]⟩

/-- Two records where the second one is missing the required parameter
`t`: its parameter list is `stdParams` with the `"t"` entry removed. -/
def exStale : ApiResult :=
  ⟨some [⟨⟨0, 1, 0⟩, stdParams⟩,
         ⟨⟨3600, 1, 1⟩, (mkParams 99 80 1010 10 4 1 0 1 5 180 10 8).filter
            (fun p => p.name ≠ "t")⟩]⟩

/-- A first record missing the required parameter `t` entirely. -/
def exMissing : ApiResult :=
  ⟨some [⟨⟨0, 1, 0⟩, [⟨"r", 80⟩, ⟨"msl", 1010⟩]⟩]⟩

/-- A first record carrying eleven of the twelve required parameters and
missing `gust`. -/
def exMissingGust : ApiResult :=
  ⟨some [⟨⟨0, 1, 0⟩, (mkParams 17 80 1010 10 4 1 0 1 5 180 10 8).filter
      (fun p => p.name ≠ "gust")⟩]⟩

/-- A morning sample (hour 0) of a concrete day group. -/
def sampleMorning : SmhiForecast :=
  ⟨5, 5, 5, 80, 1000, 0, 50, 0, 180, 5, 10, 8, 1, 1, 1, ⟨0, 1, 0⟩⟩

/-- A noon sample (hour 12) of the same concrete day group. -/
def sampleNoon : SmhiForecast :=
  ⟨15, 15, 15, 80, 1000, 0, 50, 0, 180, 5, 10, 8, 1, 2, 1, ⟨43200, 1, 12⟩⟩

/-- A sample colder than the `-100.0` sentinel. -/
def sampleCold : SmhiForecast :=
  ⟨-150, -150, -150, 80, 1000, 0, 50, 0, 180, 5, 10, 8, 1, 1, 1, ⟨0, 1, 0⟩⟩

/-- Strict choice on options: the first if present, else the second. -/
def optOr {α : Type} (a b : Option α) : Option α :=
  match a with
  | some x => some x
  | none => b

theorem optOr_none {α : Type} (b : Option α) : optOr none b = b := rfl

theorem optOr_some {α : Type} (x : α) (b : Option α) :
    optOr (some x) b = some x := rfl

theorem getLast?_cons_eq (a : SmhiForecast) (l : List SmhiForecast) :
    (a :: l).getLast? = optOr l.getLast? (some a) := by
  cases l with
  | nil => rfl
  | cons b bs =>
      rw [List.getLast?_cons_cons]
      cases h : (b :: bs).getLast? with
      | none => exact absurd (List.getLast?_eq_none_iff.mp h) (by simp)
      | some x => rfl

theorem foldl_rep_eq (g : List SmhiForecast) :
    ∀ rep : Option SmhiForecast,
      g.foldl (fun r f => if f.valid_time.hour = 12 then some f else r) rep
        = optOr ((g.filter (fun f => f.valid_time.hour == 12)).getLast?) rep := by
  induction g with
  | nil => intro rep; rfl
  | cons f t ih =>
      intro rep
      by_cases h : f.valid_time.hour = 12
      · rw [List.foldl_cons, if_pos h, ih, List.filter_cons,
          if_pos (by simpa using h), getLast?_cons_eq]
        cases (List.filter (fun f => f.valid_time.hour == 12) t).getLast? <;> rfl
      · rw [List.foldl_cons, if_neg h, ih, List.filter_cons,
          if_neg (by simpa using h)]

theorem dayScan_eq (g : List SmhiForecast) :
    ∀ tp tmax tmin rep,
      g.foldl scanStep (tp, tmax, tmin, rep)
        = (tp + precipSum g, tempMaxFold tmax g, tempMinFold tmin g,
           optOr ((g.filter (fun f => f.valid_time.hour == 12)).getLast?) rep) := by
  induction g with
  | nil =>
      intro tp tmax tmin rep
      simp [precipSum, tempMaxFold, tempMinFold, optOr_none]
  | cons f t ih =>
      intro tp tmax tmin rep
      rw [List.foldl_cons]
      show t.foldl scanStep
          (tp + f.total_precipitation,
           if tmax < f.temperature then f.temperature else tmax,
           if f.temperature < tmin then f.temperature else tmin,
           if f.valid_time.hour = 12 then some f else rep) = _
      rw [ih]
      refine Prod.ext ?_ (Prod.ext ?_ (Prod.ext ?_ ?_)) <;>
        simp only [precipSum, tempMaxFold, tempMinFold, List.map_cons,
          List.sum_cons, List.foldl_cons]
      · ring
      · rw [← foldl_rep_eq, ← foldl_rep_eq, List.foldl_cons]

theorem dayScan_components (g : List SmhiForecast) :
    dayScan g
      = (precipSum g, tempMaxFold (-100) g, tempMinFold 100 g,
         (g.filter (fun f => f.valid_time.hour == 12)).getLast?) := by
  have h := dayScan_eq g 0 (-100) 100 none
  rw [dayScan, h, zero_add]
  cases (g.filter (fun f => f.valid_time.hour == 12)).getLast? <;> rfl

theorem le_tempMaxFold (g : List SmhiForecast) :
    ∀ m : ℚ, m ≤ tempMaxFold m g := by
  induction g with
  | nil => intro m; exact le_refl m
  | cons f t ih =>
      intro m
      rw [tempMaxFold, List.foldl_cons, ← tempMaxFold]
      by_cases h : m < f.temperature
      · exact le_trans (le_of_lt h) (by rw [if_pos h]; exact ih f.temperature)
      · rw [if_neg h]; exact ih m

theorem mem_le_tempMaxFold (g : List SmhiForecast) :
    ∀ m : ℚ, ∀ f ∈ g, f.temperature ≤ tempMaxFold m g := by
  induction g with
  | nil => intro m f hf; exact absurd hf (List.not_mem_nil f)
  | cons a t ih =>
      intro m f hf
      rw [tempMaxFold, List.foldl_cons, ← tempMaxFold]
      rcases List.mem_cons.mp hf with h | h
      · subst h
        by_cases hm : m < f.temperature
        · rw [if_pos hm]; exact le_tempMaxFold t f.temperature
        · rw [if_neg hm]
          exact le_trans (le_of_not_lt hm) (le_tempMaxFold t m)
      · exact ih _ f h

theorem tempMaxFold_of_all_lt (g : List SmhiForecast) :
    ∀ m : ℚ, (∀ f ∈ g, f.temperature < m) → tempMaxFold m g = m := by
  induction g with
  | nil => intro m _; rfl
  | cons a t ih =>
      intro m h
      rw [tempMaxFold, List.foldl_cons, ← tempMaxFold]
      rw [if_neg (not_lt_of_gt (h a (List.mem_cons_self a t)))]
      exact ih m (fun f hf => h f (List.mem_cons_of_mem a hf))

theorem tempMinFold_le (g : List SmhiForecast) :
    ∀ m : ℚ, tempMinFold m g ≤ m := by
  induction g with
  | nil => intro m; exact le_refl m
  | cons f t ih =>
      intro m
      rw [tempMinFold, List.foldl_cons, ← tempMinFold]
      by_cases h : f.temperature < m
      · exact le_trans (by rw [if_pos h]; exact ih f.temperature) (le_of_lt h)
      · rw [if_neg h]; exact ih m

theorem tempMinFold_le_mem (g : List SmhiForecast) :
    ∀ m : ℚ, ∀ f ∈ g, tempMinFold m g ≤ f.temperature := by
  induction g with
  | nil => intro m f hf; exact absurd hf (List.not_mem_nil f)
  | cons a t ih =>
      intro m f hf
      rw [tempMinFold, List.foldl_cons, ← tempMinFold]
      rcases List.mem_cons.mp hf with h | h
      · subst h
        by_cases hm : f.temperature < m
        · rw [if_pos hm]; exact tempMinFold_le t f.temperature
        · rw [if_neg hm]
          exact le_trans (tempMinFold_le t m) (le_of_not_lt hm)
      · exact ih _ f h

theorem dailyLoop_of_two_le (od : List (ℕ × List SmhiForecast)) :
    ∀ (n : ℕ) (acc : List SmhiForecast), 2 ≤ n →
      dailyLoop od n acc = acc ++ od.map (fun p => daySummary p.2) := by
  induction od with
  | nil => intro n acc _; simp [dailyLoop]
  | cons p rest ih =>
      intro n acc hn
      obtain ⟨d, g⟩ := p
      rw [dailyLoop, if_neg (by omega), ih (n + 1) _ (by omega)]
      simp

theorem dailyLoop_first (d : ℕ) (g : List SmhiForecast)
    (rest : List (ℕ × List SmhiForecast)) :
    dailyLoop ((d, g) :: rest) 1 []
      = g.headD default :: daySummary g :: rest.map (fun p => daySummary p.2) := by
  rw [dailyLoop, if_pos rfl, dailyLoop_of_two_le rest 2 _ (le_refl 2)]
  simp

theorem insertSample_keys (d : ℕ) (f : SmhiForecast) :
    ∀ od : List (ℕ × List SmhiForecast),
      (insertSample od d f).map Prod.fst
        = if d ∈ od.map Prod.fst then od.map Prod.fst
          else od.map Prod.fst ++ [d] := by
  intro od
  induction od with
  | nil => simp [insertSample]
  | cons p rest ih =>
      obtain ⟨k, l⟩ := p
      by_cases h : k = d
      · subst h
        rw [insertSample, if_pos rfl]
        simp
      · rw [insertSample, if_neg h]
        simp only [List.map_cons, ih]
        have hne : d ≠ k := fun hdk => h hdk.symm
        have hiff : (d ∈ k :: rest.map Prod.fst) ↔ d ∈ rest.map Prod.fst := by
          rw [List.mem_cons]
          exact ⟨fun hc => hc.resolve_left hne, Or.inr⟩
        by_cases hm : d ∈ rest.map Prod.fst
        · rw [if_pos hm, if_pos (hiff.mpr hm)]
        · rw [if_neg hm, if_neg (fun hc => hm (hiff.mp hc))]
          simp

theorem insertSample_size (d : ℕ) (f : SmhiForecast) :
    ∀ od : List (ℕ × List SmhiForecast),
      odSize (insertSample od d f) = odSize od + 1 := by
  intro od
  induction od with
  | nil => simp [insertSample, odSize]
  | cons p rest ih =>
      obtain ⟨k, l⟩ := p
      by_cases h : k = d
      · subst h
        rw [insertSample, if_pos rfl]
        simp only [odSize, List.map_cons, List.sum_cons] at *
        simp [List.length_append]
        omega
      · rw [insertSample, if_neg h]
        simp only [odSize, List.map_cons, List.sum_cons] at *
        omega

theorem insertSample_nonempty (d : ℕ) (f : SmhiForecast) :
    ∀ od : List (ℕ × List SmhiForecast),
      (∀ p ∈ od, p.2 ≠ []) → ∀ p ∈ insertSample od d f, p.2 ≠ [] := by
  intro od
  induction od with
  | nil =>
      intro _ p hp
      rw [insertSample] at hp
      rcases List.mem_singleton.mp hp with h
      subst h; simp
  | cons q rest ih =>
      intro hall p hp
      obtain ⟨k, l⟩ := q
      by_cases h : k = d
      · subst h
        rw [insertSample, if_pos rfl] at hp
        rcases List.mem_cons.mp hp with h1 | h1
        · subst h1; simp
        · exact hall p (List.mem_cons_of_mem _ h1)
      · rw [insertSample, if_neg h] at hp
        rcases List.mem_cons.mp hp with h1 | h1
        · subst h1; exact hall (k, l) (List.mem_cons_self _ _)
        · exact ih (fun q hq => hall q (List.mem_cons_of_mem _ hq)) p h1

theorem keysFold_nodup (ts : List RawTimePoint) :
    ∀ ks : List ℕ, ks.Nodup → (keysFold ks ts).Nodup := by
  induction ts with
  | nil => intro ks h; exact h
  | cons r rest ih =>
      intro ks h
      rw [keysFold, List.foldl_cons, ← keysFold]
      by_cases hm : r.validTime.day ∈ ks
      · rw [if_pos hm]; exact ih ks h
      · rw [if_neg hm]
        exact ih _ (by simp [List.nodup_append, h, hm])

theorem mem_keysFold (x : ℕ) (ts : List RawTimePoint) :
    ∀ ks : List ℕ,
      (x ∈ keysFold ks ts
        ↔ x ∈ ks ∨ x ∈ ts.map (fun r => r.validTime.day)) := by
  induction ts with
  | nil => intro ks; simp [keysFold]
  | cons r rest ih =>
      intro ks
      rw [keysFold, List.foldl_cons, ← keysFold]
      by_cases hm : r.validTime.day ∈ ks
      · rw [if_pos hm, ih]
        simp only [List.map_cons, List.mem_cons]
        constructor
        · rintro (h | h)
          · exact Or.inl h
          · exact Or.inr (Or.inr h)
        · rintro (h | h | h)
          · exact Or.inl h
          · exact Or.inl (h ▸ hm)
          · exact Or.inr h
      · rw [if_neg hm, ih]
        simp only [List.mem_append, List.mem_singleton, List.map_cons,
          List.mem_cons, List.not_mem_nil, or_false]
        exact or_assoc

theorem keysFold_nil_length (ts : List RawTimePoint) :
    (keysFold [] ts).length = distinctDays ts := by
  have hnd : (keysFold [] ts).Nodup := keysFold_nodup ts [] List.nodup_nil
  have hset : (keysFold [] ts).toFinset
      = (ts.map (fun r => r.validTime.day)).toFinset := by
    apply Finset.ext
    intro x
    simp only [List.mem_toFinset]
    rw [mem_keysFold]
    simp
  calc (keysFold [] ts).length
      = (keysFold [] ts).toFinset.card := (List.toFinset_card_of_nodup hnd).symm
    _ = (ts.map (fun r => r.validTime.day)).toFinset.card := by rw [hset]
    _ = distinctDays ts := List.card_toFinset _

theorem processRecords_nil (st : ParamState) (lt : Option PyDateTime)
    (od : List (ℕ × List SmhiForecast)) :
    processRecords st lt od [] = some od := rfl

theorem processRecords_cons (st : ParamState) (lt : Option PyDateTime)
    (od : List (ℕ × List SmhiForecast)) (r : RawTimePoint)
    (rest : List RawTimePoint) :
    processRecords st lt od (r :: rest)
      = match buildSample (r.parameters.foldl processParam st) r.validTime
            (elapsedOf lt r.validTime) with
        | none => none
        | some f =>
            processRecords (r.parameters.foldl processParam st)
              (some r.validTime) (insertSample od r.validTime.day f) rest := rfl

theorem processRecords_keys (ts : List RawTimePoint) :
    ∀ (st : ParamState) (lt : Option PyDateTime)
      (od od' : List (ℕ × List SmhiForecast)),
      processRecords st lt od ts = some od' →
      od'.map Prod.fst = keysFold (od.map Prod.fst) ts := by
  induction ts with
  | nil =>
      intro st lt od od' h
      rw [processRecords_nil] at h
      cases h
      rfl
  | cons r rest ih =>
      intro st lt od od' h
      rw [processRecords_cons] at h
      cases hb : buildSample (r.parameters.foldl processParam st) r.validTime
          (elapsedOf lt r.validTime) with
      | none => rw [hb] at h; cases h
      | some f =>
          rw [hb] at h
          have hk := ih _ _ _ _ h
          have hstep : keysFold (od.map Prod.fst) (r :: rest)
              = keysFold ((insertSample od r.validTime.day f).map Prod.fst) rest := by
            rw [insertSample_keys]
            rfl
          rw [hk, hstep]

theorem processRecords_size (ts : List RawTimePoint) :
    ∀ (st : ParamState) (lt : Option PyDateTime)
      (od od' : List (ℕ × List SmhiForecast)),
      processRecords st lt od ts = some od' →
      odSize od' = odSize od + ts.length := by
  induction ts with
  | nil =>
      intro st lt od od' h
      rw [processRecords_nil] at h
      cases h
      simp
  | cons r rest ih =>
      intro st lt od od' h
      rw [processRecords_cons] at h
      cases hb : buildSample (r.parameters.foldl processParam st) r.validTime
          (elapsedOf lt r.validTime) with
      | none => rw [hb] at h; cases h
      | some f =>
          rw [hb] at h
          have hs := ih _ _ _ _ h
          rw [hs, insertSample_size]
          simp only [List.length_cons]
          omega

theorem processRecords_nonempty (ts : List RawTimePoint) :
    ∀ (st : ParamState) (lt : Option PyDateTime)
      (od od' : List (ℕ × List SmhiForecast)),
      (∀ p ∈ od, p.2 ≠ []) →
      processRecords st lt od ts = some od' →
      ∀ p ∈ od', p.2 ≠ [] := by
  induction ts with
  | nil =>
      intro st lt od od' hne h
      rw [processRecords_nil] at h
      cases h
      exact hne
  | cons r rest ih =>
      intro st lt od od' hne h
      rw [processRecords_cons] at h
      cases hb : buildSample (r.parameters.foldl processParam st) r.validTime
          (elapsedOf lt r.validTime) with
      | none => rw [hb] at h; cases h
      | some f =>
          rw [hb] at h
          exact ih _ _ _ _ (insertSample_nonempty r.validTime.day f od hne) h

theorem foldl_concat_map (u : SmhiForecast → SmhiForecast)
    (g : List SmhiForecast) :
    ∀ acc : List SmhiForecast,
      g.foldl (fun a f => a ++ [u f]) acc = acc ++ g.map u := by
  induction g with
  | nil => intro acc; simp
  | cons f t ih =>
      intro acc
      rw [List.foldl_cons, ih]
      simp

theorem hourLoop_eq (od : List (ℕ × List SmhiForecast)) :
    hourLoop od = (od.map (fun p => p.2.map hourUpdate)).flatten := by
  have haux : ∀ (od : List (ℕ × List SmhiForecast)) (acc : List SmhiForecast),
      od.foldl (fun acc p => p.2.foldl (fun acc2 f => acc2 ++ [hourUpdate f]) acc) acc
        = acc ++ (od.map (fun p => p.2.map hourUpdate)).flatten := by
    intro od
    induction od with
    | nil => intro acc; simp
    | cons p rest ih =>
        intro acc
        rw [List.foldl_cons, foldl_concat_map hourUpdate p.2 acc, ih]
        simp
  rw [hourLoop, haux, List.nil_append]

theorem processParam_temperature (st : ParamState) (p : RawParam)
    (h : p.name ≠ "t") : (processParam st p).temperature = st.temperature := by
  rw [processParam, if_neg h]
  by_cases h2 : p.name = "r"
  · rw [if_pos h2]
  rw [if_neg h2]
  by_cases h3 : p.name = "msl"
  · rw [if_pos h3]
  rw [if_neg h3]
  by_cases h4 : p.name = "tstm"
  · rw [if_pos h4]
  rw [if_neg h4]
  by_cases h5 : p.name = "tcc_mean"
  · rw [if_pos h5]
  rw [if_neg h5]
  by_cases h6 : p.name = "Wsymb2"
  · rw [if_pos h6]
  rw [if_neg h6]
  by_cases h7 : p.name = "pcat"
  · rw [if_pos h7]
  rw [if_neg h7]
  by_cases h8 : p.name = "pmean"
  · rw [if_pos h8]
  rw [if_neg h8]
  by_cases h9 : p.name = "ws"
  · rw [if_pos h9]
  rw [if_neg h9]
  by_cases h10 : p.name = "wd"
  · rw [if_pos h10]
  rw [if_neg h10]
  by_cases h11 : p.name = "vis"
  · rw [if_pos h11]
  rw [if_neg h11]
  by_cases h12 : p.name = "gust"
  · rw [if_pos h12]
  rw [if_neg h12]

theorem foldl_processParam_temperature (ps : List RawParam) :
    ∀ st : ParamState, (∀ p ∈ ps, p.name ≠ "t") →
      (ps.foldl processParam st).temperature = st.temperature := by
  induction ps with
  | nil => intro st _; rfl
  | cons p t ih =>
      intro st h
      rw [List.foldl_cons, ih _ (fun q hq => h q (List.mem_cons_of_mem p hq)),
        processParam_temperature st p (h p (List.mem_cons_self p t))]

theorem buildSample_none_of_no_temperature (st : ParamState)
    (vt : PyDateTime) (e : ℚ) (h : st.temperature = none) :
    buildSample st vt e = none := by
  rw [buildSample, h]
  rfl

theorem getForecast_none_of_missing_first (api : ApiResult) (r : RawTimePoint)
    (rest : List RawTimePoint) (hts : api.timeSeries = some (r :: rest))
    (hmiss : ∀ p ∈ r.parameters, p.name ≠ "t") :
    getForecast api = none ∧ getForecastHour api = none := by
  have hb : buildSample (r.parameters.foldl processParam initialParams)
      r.validTime (elapsedOf none r.validTime) = none :=
    buildSample_none_of_no_temperature _ _ _
      (foldl_processParam_temperature r.parameters initialParams hmiss)
  have hall : getAllForecastFromApi api = none := by
    rw [getAllForecastFromApi, hts]
    show processRecords initialParams none [] (r :: rest) = none
    rw [processRecords_cons, hb]
  constructor
  · rw [getForecast, hall]; rfl
  · rw [getForecastHour, hall]; rfl

theorem processParam_keeps_humidity (st : ParamState) (p : RawParam)
    (h : p.name ≠ "r") : (processParam st p).humidity = st.humidity := by
  rw [processParam]
  by_cases h1 : p.name = "t"
  · rw [if_pos h1]
  rw [if_neg h1]
  rw [if_neg h]
  by_cases h2 : p.name = "msl"
  · rw [if_pos h2]
  rw [if_neg h2]
  by_cases h3 : p.name = "tstm"
  · rw [if_pos h3]
  rw [if_neg h3]
  by_cases h4 : p.name = "tcc_mean"
  · rw [if_pos h4]
  rw [if_neg h4]
  by_cases h5 : p.name = "Wsymb2"
  · rw [if_pos h5]
  rw [if_neg h5]
  by_cases h6 : p.name = "pcat"
  · rw [if_pos h6]
  rw [if_neg h6]
  by_cases h7 : p.name = "pmean"
  · rw [if_pos h7]
  rw [if_neg h7]
  by_cases h8 : p.name = "ws"
  · rw [if_pos h8]
  rw [if_neg h8]
  by_cases h9 : p.name = "wd"
  · rw [if_pos h9]
  rw [if_neg h9]
  by_cases h10 : p.name = "vis"
  · rw [if_pos h10]
  rw [if_neg h10]
  by_cases h11 : p.name = "gust"
  · rw [if_pos h11]
  rw [if_neg h11]

theorem processParam_keeps_pressure (st : ParamState) (p : RawParam)
    (h : p.name ≠ "msl") : (processParam st p).pressure = st.pressure := by
  rw [processParam]
  by_cases h1 : p.name = "t"
  · rw [if_pos h1]
  rw [if_neg h1]
  by_cases h2 : p.name = "r"
  · rw [if_pos h2]
  rw [if_neg h2]
  rw [if_neg h]
  by_cases h3 : p.name = "tstm"
  · rw [if_pos h3]
  rw [if_neg h3]
  by_cases h4 : p.name = "tcc_mean"
  · rw [if_pos h4]
  rw [if_neg h4]
  by_cases h5 : p.name = "Wsymb2"
  · rw [if_pos h5]
  rw [if_neg h5]
  by_cases h6 : p.name = "pcat"
  · rw [if_pos h6]
  rw [if_neg h6]
  by_cases h7 : p.name = "pmean"
  · rw [if_pos h7]
  rw [if_neg h7]
  by_cases h8 : p.name = "ws"
  · rw [if_pos h8]
  rw [if_neg h8]
  by_cases h9 : p.name = "wd"
  · rw [if_pos h9]
  rw [if_neg h9]
  by_cases h10 : p.name = "vis"
  · rw [if_pos h10]
  rw [if_neg h10]
  by_cases h11 : p.name = "gust"
  · rw [if_pos h11]
  rw [if_neg h11]

theorem processParam_keeps_thunder (st : ParamState) (p : RawParam)
    (h : p.name ≠ "tstm") : (processParam st p).thunder = st.thunder := by
  rw [processParam]
  by_cases h1 : p.name = "t"
  · rw [if_pos h1]
  rw [if_neg h1]
  by_cases h2 : p.name = "r"
  · rw [if_pos h2]
  rw [if_neg h2]
  by_cases h3 : p.name = "msl"
  · rw [if_pos h3]
  rw [if_neg h3]
  rw [if_neg h]
  by_cases h4 : p.name = "tcc_mean"
  · rw [if_pos h4]
  rw [if_neg h4]
  by_cases h5 : p.name = "Wsymb2"
  · rw [if_pos h5]
  rw [if_neg h5]
  by_cases h6 : p.name = "pcat"
  · rw [if_pos h6]
  rw [if_neg h6]
  by_cases h7 : p.name = "pmean"
  · rw [if_pos h7]
  rw [if_neg h7]
  by_cases h8 : p.name = "ws"
  · rw [if_pos h8]
  rw [if_neg h8]
  by_cases h9 : p.name = "wd"
  · rw [if_pos h9]
  rw [if_neg h9]
  by_cases h10 : p.name = "vis"
  · rw [if_pos h10]
  rw [if_neg h10]
  by_cases h11 : p.name = "gust"
  · rw [if_pos h11]
  rw [if_neg h11]

theorem processParam_keeps_cloudiness (st : ParamState) (p : RawParam)
    (h : p.name ≠ "tcc_mean") : (processParam st p).cloudiness = st.cloudiness := by
  rw [processParam]
  by_cases h1 : p.name = "t"
  · rw [if_pos h1]
  rw [if_neg h1]
  by_cases h2 : p.name = "r"
  · rw [if_pos h2]
  rw [if_neg h2]
  by_cases h3 : p.name = "msl"
  · rw [if_pos h3]
  rw [if_neg h3]
  by_cases h4 : p.name = "tstm"
  · rw [if_pos h4]
  rw [if_neg h4]
  rw [if_neg h]
  by_cases h5 : p.name = "Wsymb2"
  · rw [if_pos h5]
  rw [if_neg h5]
  by_cases h6 : p.name = "pcat"
  · rw [if_pos h6]
  rw [if_neg h6]
  by_cases h7 : p.name = "pmean"
  · rw [if_pos h7]
  rw [if_neg h7]
  by_cases h8 : p.name = "ws"
  · rw [if_pos h8]
  rw [if_neg h8]
  by_cases h9 : p.name = "wd"
  · rw [if_pos h9]
  rw [if_neg h9]
  by_cases h10 : p.name = "vis"
  · rw [if_pos h10]
  rw [if_neg h10]
  by_cases h11 : p.name = "gust"
  · rw [if_pos h11]
  rw [if_neg h11]

theorem processParam_keeps_symbol (st : ParamState) (p : RawParam)
    (h : p.name ≠ "Wsymb2") : (processParam st p).symbol = st.symbol := by
  rw [processParam]
  by_cases h1 : p.name = "t"
  · rw [if_pos h1]
  rw [if_neg h1]
  by_cases h2 : p.name = "r"
  · rw [if_pos h2]
  rw [if_neg h2]
  by_cases h3 : p.name = "msl"
  · rw [if_pos h3]
  rw [if_neg h3]
  by_cases h4 : p.name = "tstm"
  · rw [if_pos h4]
  rw [if_neg h4]
  by_cases h5 : p.name = "tcc_mean"
  · rw [if_pos h5]
  rw [if_neg h5]
  rw [if_neg h]
  by_cases h6 : p.name = "pcat"
  · rw [if_pos h6]
  rw [if_neg h6]
  by_cases h7 : p.name = "pmean"
  · rw [if_pos h7]
  rw [if_neg h7]
  by_cases h8 : p.name = "ws"
  · rw [if_pos h8]
  rw [if_neg h8]
  by_cases h9 : p.name = "wd"
  · rw [if_pos h9]
  rw [if_neg h9]
  by_cases h10 : p.name = "vis"
  · rw [if_pos h10]
  rw [if_neg h10]
  by_cases h11 : p.name = "gust"
  · rw [if_pos h11]
  rw [if_neg h11]

theorem processParam_keeps_precipitation (st : ParamState) (p : RawParam)
    (h : p.name ≠ "pcat") : (processParam st p).precipitation = st.precipitation := by
  rw [processParam]
  by_cases h1 : p.name = "t"
  · rw [if_pos h1]
  rw [if_neg h1]
  by_cases h2 : p.name = "r"
  · rw [if_pos h2]
  rw [if_neg h2]
  by_cases h3 : p.name = "msl"
  · rw [if_pos h3]
  rw [if_neg h3]
  by_cases h4 : p.name = "tstm"
  · rw [if_pos h4]
  rw [if_neg h4]
  by_cases h5 : p.name = "tcc_mean"
  · rw [if_pos h5]
  rw [if_neg h5]
  by_cases h6 : p.name = "Wsymb2"
  · rw [if_pos h6]
  rw [if_neg h6]
  rw [if_neg h]
  by_cases h7 : p.name = "pmean"
  · rw [if_pos h7]
  rw [if_neg h7]
  by_cases h8 : p.name = "ws"
  · rw [if_pos h8]
  rw [if_neg h8]
  by_cases h9 : p.name = "wd"
  · rw [if_pos h9]
  rw [if_neg h9]
  by_cases h10 : p.name = "vis"
  · rw [if_pos h10]
  rw [if_neg h10]
  by_cases h11 : p.name = "gust"
  · rw [if_pos h11]
  rw [if_neg h11]

theorem processParam_keeps_mean_precipitation (st : ParamState) (p : RawParam)
    (h : p.name ≠ "pmean") : (processParam st p).mean_precipitation = st.mean_precipitation := by
  rw [processParam]
  by_cases h1 : p.name = "t"
  · rw [if_pos h1]
  rw [if_neg h1]
  by_cases h2 : p.name = "r"
  · rw [if_pos h2]
  rw [if_neg h2]
  by_cases h3 : p.name = "msl"
  · rw [if_pos h3]
  rw [if_neg h3]
  by_cases h4 : p.name = "tstm"
  · rw [if_pos h4]
  rw [if_neg h4]
  by_cases h5 : p.name = "tcc_mean"
  · rw [if_pos h5]
  rw [if_neg h5]
  by_cases h6 : p.name = "Wsymb2"
  · rw [if_pos h6]
  rw [if_neg h6]
  by_cases h7 : p.name = "pcat"
  · rw [if_pos h7]
  rw [if_neg h7]
  rw [if_neg h]
  by_cases h8 : p.name = "ws"
  · rw [if_pos h8]
  rw [if_neg h8]
  by_cases h9 : p.name = "wd"
  · rw [if_pos h9]
  rw [if_neg h9]
  by_cases h10 : p.name = "vis"
  · rw [if_pos h10]
  rw [if_neg h10]
  by_cases h11 : p.name = "gust"
  · rw [if_pos h11]
  rw [if_neg h11]

theorem processParam_keeps_wind_speed (st : ParamState) (p : RawParam)
    (h : p.name ≠ "ws") : (processParam st p).wind_speed = st.wind_speed := by
  rw [processParam]
  by_cases h1 : p.name = "t"
  · rw [if_pos h1]
  rw [if_neg h1]
  by_cases h2 : p.name = "r"
  · rw [if_pos h2]
  rw [if_neg h2]
  by_cases h3 : p.name = "msl"
  · rw [if_pos h3]
  rw [if_neg h3]
  by_cases h4 : p.name = "tstm"
  · rw [if_pos h4]
  rw [if_neg h4]
  by_cases h5 : p.name = "tcc_mean"
  · rw [if_pos h5]
  rw [if_neg h5]
  by_cases h6 : p.name = "Wsymb2"
  · rw [if_pos h6]
  rw [if_neg h6]
  by_cases h7 : p.name = "pcat"
  · rw [if_pos h7]
  rw [if_neg h7]
  by_cases h8 : p.name = "pmean"
  · rw [if_pos h8]
  rw [if_neg h8]
  rw [if_neg h]
  by_cases h9 : p.name = "wd"
  · rw [if_pos h9]
  rw [if_neg h9]
  by_cases h10 : p.name = "vis"
  · rw [if_pos h10]
  rw [if_neg h10]
  by_cases h11 : p.name = "gust"
  · rw [if_pos h11]
  rw [if_neg h11]

theorem processParam_keeps_wind_direction (st : ParamState) (p : RawParam)
    (h : p.name ≠ "wd") : (processParam st p).wind_direction = st.wind_direction := by
  rw [processParam]
  by_cases h1 : p.name = "t"
  · rw [if_pos h1]
  rw [if_neg h1]
  by_cases h2 : p.name = "r"
  · rw [if_pos h2]
  rw [if_neg h2]
  by_cases h3 : p.name = "msl"
  · rw [if_pos h3]
  rw [if_neg h3]
  by_cases h4 : p.name = "tstm"
  · rw [if_pos h4]
  rw [if_neg h4]
  by_cases h5 : p.name = "tcc_mean"
  · rw [if_pos h5]
  rw [if_neg h5]
  by_cases h6 : p.name = "Wsymb2"
  · rw [if_pos h6]
  rw [if_neg h6]
  by_cases h7 : p.name = "pcat"
  · rw [if_pos h7]
  rw [if_neg h7]
  by_cases h8 : p.name = "pmean"
  · rw [if_pos h8]
  rw [if_neg h8]
  by_cases h9 : p.name = "ws"
  · rw [if_pos h9]
  rw [if_neg h9]
  rw [if_neg h]
  by_cases h10 : p.name = "vis"
  · rw [if_pos h10]
  rw [if_neg h10]
  by_cases h11 : p.name = "gust"
  · rw [if_pos h11]
  rw [if_neg h11]

theorem processParam_keeps_horizontal_visibility (st : ParamState) (p : RawParam)
    (h : p.name ≠ "vis") : (processParam st p).horizontal_visibility = st.horizontal_visibility := by
  rw [processParam]
  by_cases h1 : p.name = "t"
  · rw [if_pos h1]
  rw [if_neg h1]
  by_cases h2 : p.name = "r"
  · rw [if_pos h2]
  rw [if_neg h2]
  by_cases h3 : p.name = "msl"
  · rw [if_pos h3]
  rw [if_neg h3]
  by_cases h4 : p.name = "tstm"
  · rw [if_pos h4]
  rw [if_neg h4]
  by_cases h5 : p.name = "tcc_mean"
  · rw [if_pos h5]
  rw [if_neg h5]
  by_cases h6 : p.name = "Wsymb2"
  · rw [if_pos h6]
  rw [if_neg h6]
  by_cases h7 : p.name = "pcat"
  · rw [if_pos h7]
  rw [if_neg h7]
  by_cases h8 : p.name = "pmean"
  · rw [if_pos h8]
  rw [if_neg h8]
  by_cases h9 : p.name = "ws"
  · rw [if_pos h9]
  rw [if_neg h9]
  by_cases h10 : p.name = "wd"
  · rw [if_pos h10]
  rw [if_neg h10]
  rw [if_neg h]
  by_cases h11 : p.name = "gust"
  · rw [if_pos h11]
  rw [if_neg h11]

theorem processParam_keeps_wind_gust (st : ParamState) (p : RawParam)
    (h : p.name ≠ "gust") : (processParam st p).wind_gust = st.wind_gust := by
  rw [processParam]
  by_cases h1 : p.name = "t"
  · rw [if_pos h1]
  rw [if_neg h1]
  by_cases h2 : p.name = "r"
  · rw [if_pos h2]
  rw [if_neg h2]
  by_cases h3 : p.name = "msl"
  · rw [if_pos h3]
  rw [if_neg h3]
  by_cases h4 : p.name = "tstm"
  · rw [if_pos h4]
  rw [if_neg h4]
  by_cases h5 : p.name = "tcc_mean"
  · rw [if_pos h5]
  rw [if_neg h5]
  by_cases h6 : p.name = "Wsymb2"
  · rw [if_pos h6]
  rw [if_neg h6]
  by_cases h7 : p.name = "pcat"
  · rw [if_pos h7]
  rw [if_neg h7]
  by_cases h8 : p.name = "pmean"
  · rw [if_pos h8]
  rw [if_neg h8]
  by_cases h9 : p.name = "ws"
  · rw [if_pos h9]
  rw [if_neg h9]
  by_cases h10 : p.name = "wd"
  · rw [if_pos h10]
  rw [if_neg h10]
  by_cases h11 : p.name = "vis"
  · rw [if_pos h11]
  rw [if_neg h11]
  rw [if_neg h]

theorem stateValue_keeps (st : ParamState) (p : RawParam) (nm : String)
    (h : p.name ≠ nm) : stateValue (processParam st p) nm = stateValue st nm := by
  rw [stateValue, stateValue]
  by_cases h1 : nm = "t"
  · rw [if_pos h1, if_pos h1, processParam_temperature st p (fun hc => h (hc.trans h1.symm))]
  rw [if_neg h1, if_neg h1]
  by_cases h2 : nm = "r"
  · rw [if_pos h2, if_pos h2, processParam_keeps_humidity st p (fun hc => h (hc.trans h2.symm))]
  rw [if_neg h2, if_neg h2]
  by_cases h3 : nm = "msl"
  · rw [if_pos h3, if_pos h3, processParam_keeps_pressure st p (fun hc => h (hc.trans h3.symm))]
  rw [if_neg h3, if_neg h3]
  by_cases h4 : nm = "tstm"
  · rw [if_pos h4, if_pos h4, processParam_keeps_thunder st p (fun hc => h (hc.trans h4.symm))]
  rw [if_neg h4, if_neg h4]
  by_cases h5 : nm = "tcc_mean"
  · rw [if_pos h5, if_pos h5, processParam_keeps_cloudiness st p (fun hc => h (hc.trans h5.symm))]
  rw [if_neg h5, if_neg h5]
  by_cases h6 : nm = "Wsymb2"
  · rw [if_pos h6, if_pos h6, processParam_keeps_symbol st p (fun hc => h (hc.trans h6.symm))]
  rw [if_neg h6, if_neg h6]
  by_cases h7 : nm = "pcat"
  · rw [if_pos h7, if_pos h7, processParam_keeps_precipitation st p (fun hc => h (hc.trans h7.symm))]
  rw [if_neg h7, if_neg h7]
  by_cases h8 : nm = "pmean"
  · rw [if_pos h8, if_pos h8, processParam_keeps_mean_precipitation st p (fun hc => h (hc.trans h8.symm))]
  rw [if_neg h8, if_neg h8]
  by_cases h9 : nm = "ws"
  · rw [if_pos h9, if_pos h9, processParam_keeps_wind_speed st p (fun hc => h (hc.trans h9.symm))]
  rw [if_neg h9, if_neg h9]
  by_cases h10 : nm = "wd"
  · rw [if_pos h10, if_pos h10, processParam_keeps_wind_direction st p (fun hc => h (hc.trans h10.symm))]
  rw [if_neg h10, if_neg h10]
  by_cases h11 : nm = "vis"
  · rw [if_pos h11, if_pos h11, processParam_keeps_horizontal_visibility st p (fun hc => h (hc.trans h11.symm))]
  rw [if_neg h11, if_neg h11]
  by_cases h12 : nm = "gust"
  · rw [if_pos h12, if_pos h12, processParam_keeps_wind_gust st p (fun hc => h (hc.trans h12.symm))]
  rw [if_neg h12, if_neg h12]

theorem foldl_processParam_keeps {α : Type} (A : ParamState → α) (nm : String)
    (hA : ∀ (st : ParamState) (p : RawParam), p.name ≠ nm →
      A (processParam st p) = A st) (ps : List RawParam) :
    ∀ st : ParamState, (∀ p ∈ ps, p.name ≠ nm) →
      A (ps.foldl processParam st) = A st := by
  induction ps with
  | nil => intro st _; rfl
  | cons p t ih =>
      intro st h
      rw [List.foldl_cons, ih _ (fun q hq => h q (List.mem_cons_of_mem p hq)),
        hA st p (h p (List.mem_cons_self p t))]

theorem buildSample_isSome_iff (st : ParamState) (vt : PyDateTime) (e : ℚ) :
    (buildSample st vt e).isSome = true
      ↔ (st.temperature.isSome = true
        ∧ st.humidity.isSome = true
        ∧ st.pressure.isSome = true
        ∧ st.thunder.isSome = true
        ∧ st.cloudiness.isSome = true
        ∧ st.symbol.isSome = true
        ∧ st.precipitation.isSome = true
        ∧ st.mean_precipitation.isSome = true
        ∧ st.wind_speed.isSome = true
        ∧ st.wind_direction.isSome = true
        ∧ st.horizontal_visibility.isSome = true
        ∧ st.wind_gust.isSome = true) := by
  rw [buildSample]
  cases st.temperature with
  | none =>
      exact iff_of_false (fun hc => Bool.noConfusion hc)
        (fun hc => Bool.noConfusion hc.1)
  | some x1 =>
      cases st.humidity with
      | none =>
          exact iff_of_false (fun hc => Bool.noConfusion hc)
            (fun hc => Bool.noConfusion hc.2.1)
      | some x2 =>
          cases st.pressure with
          | none =>
              exact iff_of_false (fun hc => Bool.noConfusion hc)
                (fun hc => Bool.noConfusion hc.2.2.1)
          | some x3 =>
              cases st.thunder with
              | none =>
                  exact iff_of_false (fun hc => Bool.noConfusion hc)
                    (fun hc => Bool.noConfusion hc.2.2.2.1)
              | some x4 =>
                  cases st.cloudiness with
                  | none =>
                      exact iff_of_false (fun hc => Bool.noConfusion hc)
                        (fun hc => Bool.noConfusion hc.2.2.2.2.1)
                  | some x5 =>
                      cases st.symbol with
                      | none =>
                          exact iff_of_false (fun hc => Bool.noConfusion hc)
                            (fun hc => Bool.noConfusion hc.2.2.2.2.2.1)
                      | some x6 =>
                          cases st.precipitation with
                          | none =>
                              exact iff_of_false (fun hc => Bool.noConfusion hc)
                                (fun hc => Bool.noConfusion hc.2.2.2.2.2.2.1)
                          | some x7 =>
                              cases st.mean_precipitation with
                              | none =>
                                  exact iff_of_false (fun hc => Bool.noConfusion hc)
                                    (fun hc => Bool.noConfusion hc.2.2.2.2.2.2.2.1)
                              | some x8 =>
                                  cases st.wind_speed with
                                  | none =>
                                      exact iff_of_false (fun hc => Bool.noConfusion hc)
                                        (fun hc => Bool.noConfusion hc.2.2.2.2.2.2.2.2.1)
                                  | some x9 =>
                                      cases st.wind_direction with
                                      | none =>
                                          exact iff_of_false (fun hc => Bool.noConfusion hc)
                                            (fun hc => Bool.noConfusion hc.2.2.2.2.2.2.2.2.2.1)
                                      | some x10 =>
                                          cases st.horizontal_visibility with
                                          | none =>
                                              exact iff_of_false (fun hc => Bool.noConfusion hc)
                                                (fun hc => Bool.noConfusion hc.2.2.2.2.2.2.2.2.2.2.1)
                                          | some x11 =>
                                              cases st.wind_gust with
                                              | none =>
                                                  exact iff_of_false (fun hc => Bool.noConfusion hc)
                                                    (fun hc => Bool.noConfusion hc.2.2.2.2.2.2.2.2.2.2.2)
                                              | some x12 =>
                                                  exact iff_of_true rfl
                                                    ⟨rfl, rfl, rfl, rfl, rfl, rfl, rfl, rfl, rfl, rfl, rfl, rfl⟩

theorem isSome_map_cast (o : Option ℤ) :
    (o.map (fun z => (z : ℚ))).isSome = o.isSome := by
  cases o <;> rfl

theorem map_cast_eq_none (o : Option ℤ) :
    o.map (fun z => (z : ℚ)) = none ↔ o = none := by
  cases o <;> simp

theorem stateValue_assigned (st : ParamState) (p : RawParam)
    (hm : p.name ∈ requiredNames) :
    (stateValue (processParam st p) p.name).isSome = true := by
  simp only [requiredNames, List.mem_cons, List.mem_singleton,
    List.not_mem_nil, or_false] at hm
  rcases hm with h | h | h | h | h | h | h | h | h | h | h | h
  · rw [processParam, h]
    rw [if_pos rfl]
    rfl
  · rw [processParam, h]
    rw [if_neg (by decide), if_pos rfl]
    rfl
  · rw [processParam, h]
    rw [if_neg (by decide), if_neg (by decide), if_pos rfl]
    rfl
  · rw [processParam, h]
    rw [if_neg (by decide), if_neg (by decide), if_neg (by decide), if_pos rfl]
    rfl
  · rw [processParam, h]
    rw [if_neg (by decide), if_neg (by decide), if_neg (by decide), if_neg (by decide), if_pos rfl]
    rfl
  · rw [processParam, h]
    rw [if_neg (by decide), if_neg (by decide), if_neg (by decide), if_neg (by decide), if_neg (by decide), if_pos rfl]
    rfl
  · rw [processParam, h]
    rw [if_neg (by decide), if_neg (by decide), if_neg (by decide), if_neg (by decide), if_neg (by decide), if_neg (by decide), if_pos rfl]
    rfl
  · rw [processParam, h]
    rw [if_neg (by decide), if_neg (by decide), if_neg (by decide), if_neg (by decide), if_neg (by decide), if_neg (by decide), if_neg (by decide), if_pos rfl]
    rfl
  · rw [processParam, h]
    rw [if_neg (by decide), if_neg (by decide), if_neg (by decide), if_neg (by decide), if_neg (by decide), if_neg (by decide), if_neg (by decide), if_neg (by decide), if_pos rfl]
    rfl
  · rw [processParam, h]
    rw [if_neg (by decide), if_neg (by decide), if_neg (by decide), if_neg (by decide), if_neg (by decide), if_neg (by decide), if_neg (by decide), if_neg (by decide), if_neg (by decide), if_pos rfl]
    rfl
  · rw [processParam, h]
    rw [if_neg (by decide), if_neg (by decide), if_neg (by decide), if_neg (by decide), if_neg (by decide), if_neg (by decide), if_neg (by decide), if_neg (by decide), if_neg (by decide), if_neg (by decide), if_pos rfl]
    rfl
  · rw [processParam, h]
    rw [if_neg (by decide), if_neg (by decide), if_neg (by decide), if_neg (by decide), if_neg (by decide), if_neg (by decide), if_neg (by decide), if_neg (by decide), if_neg (by decide), if_neg (by decide), if_neg (by decide), if_pos rfl]
    rfl

theorem processParam_keepsAll (st : ParamState) (p : RawParam)
    (h : ∀ m ∈ requiredNames, (stateValue st m).isSome = true) :
    ∀ m ∈ requiredNames, (stateValue (processParam st p) m).isSome = true := by
  intro m hm
  by_cases hpm : p.name = m
  · subst hpm
    exact stateValue_assigned st p hm
  · rw [stateValue_keeps st p m hpm]
    exact h m hm

theorem foldl_processParam_keepsAll (ps : List RawParam) :
    ∀ st : ParamState, (∀ m ∈ requiredNames, (stateValue st m).isSome = true) →
      ∀ m ∈ requiredNames,
        (stateValue (ps.foldl processParam st) m).isSome = true := by
  induction ps with
  | nil => intro st h; exact h
  | cons p t ih =>
      intro st h
      rw [List.foldl_cons]
      exact ih _ (processParam_keepsAll st p h)

theorem buildSample_isSome_of_all (st : ParamState) (vt : PyDateTime) (e : ℚ)
    (h : ∀ m ∈ requiredNames, (stateValue st m).isSome = true) :
    (buildSample st vt e).isSome = true := by
  rw [buildSample_isSome_iff]
  refine ⟨?_, ?_, ?_, ?_, ?_, ?_, ?_, ?_, ?_, ?_, ?_, ?_⟩
  · have hx := h "t" (by simp [requiredNames])
    exact hx
  · have hx := h "r" (by simp [requiredNames])
    rw [← isSome_map_cast st.humidity]
    exact hx
  · have hx := h "msl" (by simp [requiredNames])
    exact hx
  · have hx := h "tstm" (by simp [requiredNames])
    rw [← isSome_map_cast st.thunder]
    exact hx
  · have hx := h "tcc_mean" (by simp [requiredNames])
    rw [← isSome_map_cast st.cloudiness]
    exact hx
  · have hx := h "Wsymb2" (by simp [requiredNames])
    rw [← isSome_map_cast st.symbol]
    exact hx
  · have hx := h "pcat" (by simp [requiredNames])
    rw [← isSome_map_cast st.precipitation]
    exact hx
  · have hx := h "pmean" (by simp [requiredNames])
    exact hx
  · have hx := h "ws" (by simp [requiredNames])
    exact hx
  · have hx := h "wd" (by simp [requiredNames])
    rw [← isSome_map_cast st.wind_direction]
    exact hx
  · have hx := h "vis" (by simp [requiredNames])
    exact hx
  · have hx := h "gust" (by simp [requiredNames])
    exact hx

theorem processRecords_isSome_of_all (ts : List RawTimePoint) :
    ∀ (st : ParamState) (lt : Option PyDateTime)
      (od : List (ℕ × List SmhiForecast)),
      (∀ m ∈ requiredNames, (stateValue st m).isSome = true) →
      (processRecords st lt od ts).isSome = true := by
  induction ts with
  | nil => intro st lt od _; rw [processRecords_nil]; rfl
  | cons r rest ih =>
      intro st lt od h
      have hall := foldl_processParam_keepsAll r.parameters st h
      have hb := buildSample_isSome_of_all (r.parameters.foldl processParam st)
        r.validTime (elapsedOf lt r.validTime) hall
      rw [processRecords_cons]
      cases hsb : buildSample (r.parameters.foldl processParam st) r.validTime
          (elapsedOf lt r.validTime) with
      | none => rw [hsb] at hb; exact absurd hb (by simp)
      | some f => exact ih _ _ _ hall

theorem buildSample_none_of_missing_required (ps : List RawParam)
    (vt : PyDateTime) (e : ℚ) (nm : String) (hreq : nm ∈ requiredNames)
    (hmiss : ∀ p ∈ ps, p.name ≠ nm) :
    buildSample (ps.foldl processParam initialParams) vt e = none := by
  have hkeep : stateValue (ps.foldl processParam initialParams) nm
      = stateValue initialParams nm :=
    foldl_processParam_keeps (fun st => stateValue st nm) nm
      (fun st p h => stateValue_keeps st p nm h) ps initialParams hmiss
  cases hb : buildSample (ps.foldl processParam initialParams) vt e with
  | none => rfl
  | some f =>
      exfalso
      have hsome : (buildSample (ps.foldl processParam initialParams) vt e).isSome
          = true := by rw [hb]; rfl
      rw [buildSample_isSome_iff] at hsome
      simp only [requiredNames, List.mem_cons, List.mem_singleton,
        List.not_mem_nil, or_false] at hreq
      rcases hreq with h | h | h | h | h | h | h | h | h | h | h | h
      · subst h
        have h1 : stateValue (ps.foldl processParam initialParams) "t"
            = none := by
          rw [hkeep]
          rfl
        have hnone : (ps.foldl processParam initialParams).temperature = none := h1
        rw [hnone] at hsome
        simp at hsome
      · subst h
        have h1 : stateValue (ps.foldl processParam initialParams) "r"
            = none := by
          rw [hkeep]
          rfl
        have hnone : (ps.foldl processParam initialParams).humidity = none :=
          (map_cast_eq_none ((ps.foldl processParam initialParams).humidity)).mp h1
        rw [hnone] at hsome
        simp at hsome
      · subst h
        have h1 : stateValue (ps.foldl processParam initialParams) "msl"
            = none := by
          rw [hkeep]
          rfl
        have hnone : (ps.foldl processParam initialParams).pressure = none := h1
        rw [hnone] at hsome
        simp at hsome
      · subst h
        have h1 : stateValue (ps.foldl processParam initialParams) "tstm"
            = none := by
          rw [hkeep]
          rfl
        have hnone : (ps.foldl processParam initialParams).thunder = none :=
          (map_cast_eq_none ((ps.foldl processParam initialParams).thunder)).mp h1
        rw [hnone] at hsome
        simp at hsome
      · subst h
        have h1 : stateValue (ps.foldl processParam initialParams) "tcc_mean"
            = none := by
          rw [hkeep]
          rfl
        have hnone : (ps.foldl processParam initialParams).cloudiness = none :=
          (map_cast_eq_none ((ps.foldl processParam initialParams).cloudiness)).mp h1
        rw [hnone] at hsome
        simp at hsome
      · subst h
        have h1 : stateValue (ps.foldl processParam initialParams) "Wsymb2"
            = none := by
          rw [hkeep]
          rfl
        have hnone : (ps.foldl processParam initialParams).symbol = none :=
          (map_cast_eq_none ((ps.foldl processParam initialParams).symbol)).mp h1
        rw [hnone] at hsome
        simp at hsome
      · subst h
        have h1 : stateValue (ps.foldl processParam initialParams) "pcat"
            = none := by
          rw [hkeep]
          rfl
        have hnone : (ps.foldl processParam initialParams).precipitation = none :=
          (map_cast_eq_none ((ps.foldl processParam initialParams).precipitation)).mp h1
        rw [hnone] at hsome
        simp at hsome
      · subst h
        have h1 : stateValue (ps.foldl processParam initialParams) "pmean"
            = none := by
          rw [hkeep]
          rfl
        have hnone : (ps.foldl processParam initialParams).mean_precipitation = none := h1
        rw [hnone] at hsome
        simp at hsome
      · subst h
        have h1 : stateValue (ps.foldl processParam initialParams) "ws"
            = none := by
          rw [hkeep]
          rfl
        have hnone : (ps.foldl processParam initialParams).wind_speed = none := h1
        rw [hnone] at hsome
        simp at hsome
      · subst h
        have h1 : stateValue (ps.foldl processParam initialParams) "wd"
            = none := by
          rw [hkeep]
          rfl
        have hnone : (ps.foldl processParam initialParams).wind_direction = none :=
          (map_cast_eq_none ((ps.foldl processParam initialParams).wind_direction)).mp h1
        rw [hnone] at hsome
        simp at hsome
      · subst h
        have h1 : stateValue (ps.foldl processParam initialParams) "vis"
            = none := by
          rw [hkeep]
          rfl
        have hnone : (ps.foldl processParam initialParams).horizontal_visibility = none := h1
        rw [hnone] at hsome
        simp at hsome
      · subst h
        have h1 : stateValue (ps.foldl processParam initialParams) "gust"
            = none := by
          rw [hkeep]
          rfl
        have hnone : (ps.foldl processParam initialParams).wind_gust = none := h1
        rw [hnone] at hsome
        simp at hsome

theorem getForecast_none_of_missing_required (api : ApiResult)
    (r : RawTimePoint) (rest : List RawTimePoint) (nm : String)
    (hts : api.timeSeries = some (r :: rest)) (hreq : nm ∈ requiredNames)
    (hmiss : ∀ p ∈ r.parameters, p.name ≠ nm) :
    getForecast api = none ∧ getForecastHour api = none := by
  have hb := buildSample_none_of_missing_required r.parameters r.validTime
    (elapsedOf none r.validTime) nm hreq hmiss
  have hall : getAllForecastFromApi api = none := by
    rw [getAllForecastFromApi, hts]
    show processRecords initialParams none [] (r :: rest) = none
    rw [processRecords_cons, hb]
  constructor
  · rw [getForecast, hall]
    rfl
  · rw [getForecastHour, hall]
    rfl

/-- C4: For every day group, the daily representative snapshot is the last
sample in the group whose valid_time has hour-of-day exactly 12 (only then
with the extreme/precipitation fields overwritten); if no sample in the
group has hour 12, the representative is the group's first sample;
consequently the emitted daily summary's valid_time equals the chosen noon
sample's timestamp, or the day's first sample's timestamp when no noon
sample exists. -/
theorem noon_representative (g : List SmhiForecast) (h' : g ≠ []) :
    daySummary g
      = { (((g.filter (fun f => f.valid_time.hour == 12)).getLast?).getD
            (g.headD default)) with
          temperature_max := tempMaxFold (-100) g
          temperature_min := tempMinFold 100 g
          total_precipitation := precipSum g
          mean_precipitation := precipSum g / 24 }
    ∧ ((∀ f ∈ g, f.valid_time.hour ≠ 12) →
        (daySummary g).valid_time = (g.headD default).valid_time) := by
  constructor
  · rw [daySummary, dayScan_components]
  · intro hno
    rw [daySummary, dayScan_components]
    have hnil : g.filter (fun f => f.valid_time.hour == 12) = [] :=
      List.filter_eq_nil_iff.mpr (fun f hf => by simpa using hno f hf)
    rw [hnil]
    rfl

/-- Witness for C4 on the concrete group `[sampleMorning, sampleNoon]`:
the summary's valid_time is the noon sample's timestamp. -/
theorem noon_representative_witness :
    (daySummary [sampleMorning, sampleNoon]).valid_time
      = sampleNoon.valid_time := by
  have h := (noon_representative [sampleMorning, sampleNoon] (by simp)).1
  rw [h]
  simp [sampleMorning, sampleNoon]

/-- C5: For every day group, the emitted daily summary's temperature_max
bounds every sample's temperature from above and temperature_min bounds it
from below; total_precipitation equals the sum of the group's per-sample
total_precipitation values; and mean_precipitation equals that total
divided by 24 exactly. -/
theorem daily_extremes_and_precip (g : List SmhiForecast) (h' : g ≠ []) :
    (∀ f ∈ g, f.temperature ≤ (daySummary g).temperature_max
        ∧ (daySummary g).temperature_min ≤ f.temperature)
    ∧ (daySummary g).total_precipitation
        = (g.map (fun f => f.total_precipitation)).sum
    ∧ (daySummary g).mean_precipitation
        = (daySummary g).total_precipitation / 24 := by
  have hmax : (daySummary g).temperature_max = tempMaxFold (-100) g := by
    rw [daySummary, dayScan_components]
  have hmin : (daySummary g).temperature_min = tempMinFold 100 g := by
    rw [daySummary, dayScan_components]
  have htot : (daySummary g).total_precipitation = precipSum g := by
    rw [daySummary, dayScan_components]
  have hmean : (daySummary g).mean_precipitation = precipSum g / 24 := by
    rw [daySummary, dayScan_components]
  refine ⟨fun f hf => ⟨?_, ?_⟩, ?_, ?_⟩
  · rw [hmax]; exact mem_le_tempMaxFold g (-100) f hf
  · rw [hmin]; exact tempMinFold_le_mem g 100 f hf
  · rw [htot]; rfl
  · rw [hmean, htot]

/-- Witness for C5 on the concrete group `[sampleMorning, sampleNoon]`. -/
theorem daily_extremes_and_precip_witness :
    sampleMorning.temperature
        ≤ (daySummary [sampleMorning, sampleNoon]).temperature_max
    ∧ (daySummary [sampleMorning, sampleNoon]).temperature_min
        ≤ sampleMorning.temperature
    ∧ (daySummary [sampleMorning, sampleNoon]).total_precipitation
        = ([sampleMorning, sampleNoon].map (fun f => f.total_precipitation)).sum
    ∧ (daySummary [sampleMorning, sampleNoon]).mean_precipitation
        = (daySummary [sampleMorning, sampleNoon]).total_precipitation / 24 := by
  have h := daily_extremes_and_precip [sampleMorning, sampleNoon] (by simp)
  exact ⟨(h.1 sampleMorning (by simp)).1, (h.1 sampleMorning (by simp)).2,
    h.2.1, h.2.2⟩

/-- C10: For every day group, the emitted daily summary's temperature_max
is never less than -100.0 and its temperature_min never greater than 100.0
(the scan starts from the sentinels -100.0 and 100.0); for a day whose
every sample temperature is below -100.0, the reported temperature_max is
exactly -100.0, which is not the temperature of any sample in the group. -/
theorem daily_sentinel_bounds (g : List SmhiForecast) (h' : g ≠ []) :
    -100 ≤ (daySummary g).temperature_max
    ∧ (daySummary g).temperature_min ≤ 100
    ∧ ((∀ f ∈ g, f.temperature < -100) →
        (daySummary g).temperature_max = -100
        ∧ ∀ f ∈ g, f.temperature ≠ (daySummary g).temperature_max) := by
  have hmax : (daySummary g).temperature_max = tempMaxFold (-100) g := by
    rw [daySummary, dayScan_components]
  have hmin : (daySummary g).temperature_min = tempMinFold 100 g := by
    rw [daySummary, dayScan_components]
  refine ⟨?_, ?_, fun hcold => ⟨?_, ?_⟩⟩
  · rw [hmax]; exact le_tempMaxFold g (-100)
  · rw [hmin]; exact tempMinFold_le g 100
  · rw [hmax]; exact tempMaxFold_of_all_lt g (-100) hcold
  · intro f hf
    rw [hmax, tempMaxFold_of_all_lt g (-100) hcold]
    exact ne_of_lt (hcold f hf)

/-- Witness for C10 on the concrete single-sample group `[sampleCold]`
whose only temperature is -150 °C. -/
theorem daily_sentinel_bounds_witness :
    -100 ≤ (daySummary [sampleCold]).temperature_max
    ∧ (daySummary [sampleCold]).temperature_max = -100
    ∧ sampleCold.temperature ≠ (daySummary [sampleCold]).temperature_max := by
  have h := daily_sentinel_bounds [sampleCold] (by simp)
  have hcold : ∀ f ∈ ([sampleCold] : List SmhiForecast), f.temperature < -100 := by
    intro f hf
    rw [List.mem_singleton] at hf
    subst hf
    norm_num [sampleCold]
  exact ⟨h.1, (h.2.2 hcold).1, (h.2.2 hcold).2 sampleCold (by simp)⟩

/-- C1: For every valid input whose timeSeries is non-empty, the daily
forecast function returns 1 + (number of distinct day keys) records, and
its very first element is the first day group's first sample, emitted
unmodified (the deep-copied current-conditions snapshot), once total. -/
theorem daily_length_and_snapshot (api : ApiResult) (ts : List RawTimePoint)
    (od : List (ℕ × List SmhiForecast)) (l : List SmhiForecast)
    (hts : api.timeSeries = some ts)
    (hod : getAllForecastFromApi api = some od)
    (hl : getForecast api = some l)
    (hne : ts ≠ []) :
    l.length = 1 + distinctDays ts
    ∧ ∃ d g, od.head? = some (d, g) ∧ l.head? = g.head? := by
  have hpr : processRecords initialParams none [] ts = some od := by
    rw [getAllForecastFromApi, hts] at hod
    exact hod
  have hsize : odSize od = ts.length := by
    have h := processRecords_size ts initialParams none [] od hpr
    simpa [odSize] using h
  have hodne : od ≠ [] := by
    intro hnil
    subst hnil
    simp only [odSize, List.map_nil, List.sum_nil] at hsize
    exact hne (List.length_eq_zero.mp hsize.symm)
  obtain ⟨d, g, rest, rfl⟩ : ∃ d g rest, od = (d, g) :: rest := by
    cases od with
    | nil => exact absurd rfl hodne
    | cons p r => exact ⟨p.1, p.2, r, rfl⟩
  have hl2 : l = dailyLoop ((d, g) :: rest) 1 [] := by
    rw [getForecast, hod] at hl
    exact (Option.some.inj hl).symm
  have hkeys : (((d, g) :: rest).map Prod.fst).length = distinctDays ts := by
    have h := processRecords_keys ts initialParams none [] ((d, g) :: rest) hpr
    rw [List.map_nil] at h
    rw [h, keysFold_nil_length]
  constructor
  · rw [hl2, dailyLoop_first]
    simp only [List.length_cons, List.length_map]
    simp only [List.length_cons, List.length_map] at hkeys
    omega
  · refine ⟨d, g, rfl, ?_⟩
    have hgne : g ≠ [] :=
      processRecords_nonempty ts initialParams none [] _ (by simp) hpr (d, g)
        (List.mem_cons_self _ _)
    rw [hl2, dailyLoop_first]
    cases g with
    | nil => exact absurd rfl hgne
    | cons a t => rfl

/-- Witness for C1 on the one-record document `exOne`: the daily output
has length 1 + 1 and starts with the untouched first sample. -/
theorem daily_length_and_snapshot_witness :
    ([sampleA, daySummary [sampleA]] : List SmhiForecast).length
      = 1 + distinctDays [⟨⟨0, 1, 0⟩, stdParams⟩]
    ∧ ([sampleA, daySummary [sampleA]] : List SmhiForecast).head?
      = ([sampleA] : List SmhiForecast).head? := by
  have hod : getAllForecastFromApi exOne = some [(1, [sampleA])] := by
    simp [getAllForecastFromApi, exOne, stdParams, mkParams, processRecords,
      buildSample, processParam, initialParams, insertSample, elapsedOf,
      tdSeconds, pyInt, cloudinessOfOcta, rhe, round1, round2, sampleA]
    norm_num [Int.fract]
  have hl : getForecast exOne = some [sampleA, daySummary [sampleA]] := by
    rw [getForecast, hod, Option.map_some', dailyLoop_first]
    rfl
  have h := daily_length_and_snapshot exOne [⟨⟨0, 1, 0⟩, stdParams⟩]
      [(1, [sampleA])] [sampleA, daySummary [sampleA]] rfl hod hl (by simp)
  obtain ⟨hlen, d, g, hhead, hh2⟩ := h
  have h' : ((1 : ℕ), [sampleA]) = (d, g) := Option.some.inj hhead
  have hg : [sampleA] = g := (Prod.mk.injEq _ _ _ _ ▸ h').2
  rw [← hg] at hh2
  exact ⟨hlen, hh2⟩

/-- C6 (amended): the hourly forecast function returns exactly one output
record per element of timeSeries, each with total_precipitation overwritten
by its own mean_precipitation; the records appear in day-grouped order
(day keys in first-occurrence order, within-day in input order), which
coincides with input order only when equal day-of-month keys are
contiguous in the input. -/
theorem hourly_cardinality (api : ApiResult) (ts : List RawTimePoint)
    (od : List (ℕ × List SmhiForecast)) (l : List SmhiForecast)
    (hts : api.timeSeries = some ts)
    (hod : getAllForecastFromApi api = some od)
    (hl : getForecastHour api = some l) :
    l.length = ts.length
    ∧ l = (od.map (fun p => p.2.map hourUpdate)).flatten
    ∧ ∀ f ∈ l, f.total_precipitation = f.mean_precipitation := by
  rw [getForecastHour, hod, Option.map_some'] at hl
  have hl2 : hourLoop od = l := Option.some.inj hl
  have hpr : processRecords initialParams none [] ts = some od := by
    rw [getAllForecastFromApi, hts] at hod
    exact hod
  have hsize : odSize od = ts.length := by
    have h := processRecords_size ts initialParams none [] od hpr
    simpa [odSize] using h
  subst hl2
  refine ⟨?_, hourLoop_eq od, ?_⟩
  · rw [hourLoop_eq, List.length_flatten, List.map_map]
    have hcomp : (List.length ∘ fun p : ℕ × List SmhiForecast => p.2.map hourUpdate)
        = fun p : ℕ × List SmhiForecast => p.2.length := by
      funext p
      simp
    rw [hcomp, ← odSize, hsize]
  · intro f hf
    rw [hourLoop_eq, List.mem_flatten] at hf
    obtain ⟨inner, hin, hfin⟩ := hf
    rw [List.mem_map] at hin
    obtain ⟨p, hp, rfl⟩ := hin
    rw [List.mem_map] at hfin
    obtain ⟨s, hs, rfl⟩ := hfin
    rfl

/-- The raw sample built from `stdParams` at the second time point of
`exGap`: its total_precipitation is 0 because of the 24-hour gap. -/
def sampleB0 : SmhiForecast :=
  ⟨17, 17, 17, 80, 1010, 10, 50, 0, 180, 5, 10, 8, 1, 0, 1, ⟨86400, 2, 0⟩⟩

/-- The same record after `_get_forecast_hour` overwrites total with mean. -/
def sampleB : SmhiForecast :=
  ⟨17, 17, 17, 80, 1010, 10, 50, 0, 180, 5, 10, 8, 1, 1, 1, ⟨86400, 2, 0⟩⟩

/-- Witness for C6 (amended) on the two-record document `exGap`. -/
theorem hourly_cardinality_witness :
    ([sampleA, sampleB] : List SmhiForecast).length
      = ([⟨⟨0, 1, 0⟩, stdParams⟩, ⟨⟨86400, 2, 0⟩, stdParams⟩] : List RawTimePoint).length
    ∧ ([sampleA, sampleB] : List SmhiForecast)
      = (([((1 : ℕ), [sampleA]), ((2 : ℕ), [sampleB0])].map
          (fun p => p.2.map hourUpdate)).flatten)
    ∧ sampleB.total_precipitation = sampleB.mean_precipitation := by
  have hod : getAllForecastFromApi exGap
      = some [(1, [sampleA]), (2, [sampleB0])] := by
    simp [getAllForecastFromApi, exGap, stdParams, mkParams,
      processRecords, buildSample, processParam, initialParams, insertSample,
      elapsedOf, tdSeconds, pyInt, cloudinessOfOcta, rhe, round1, round2,
      sampleA, sampleB0]
    norm_num [Int.fract]
  have hl : getForecastHour exGap = some [sampleA, sampleB] := by
    rw [getForecastHour, hod, Option.map_some']
    simp [hourLoop, hourUpdate, sampleA, sampleB0, sampleB]
  have h := hourly_cardinality exGap
      [⟨⟨0, 1, 0⟩, stdParams⟩, ⟨⟨86400, 2, 0⟩, stdParams⟩]
      [(1, [sampleA]), (2, [sampleB0])]
      [sampleA, sampleB] rfl hod hl
  exact ⟨h.1, h.2.1, h.2.2 sampleB (by simp)⟩

/-- C6 counterexample: on the chronologically ascending three-record
document `exMonth` (whose day-of-month keys are 1, 2, 1 across a month
boundary) the hourly output is NOT in chronological input order: the
grouping by day-of-month moves the third record before the second. -/
theorem hourly_order_counterexample :
    (getForecastHour exMonth).map (List.map (fun f => f.valid_time.epoch))
        = some [0, 2678400, 86400]
    ∧ exMonth.timeSeries.map (List.map (fun r => r.validTime.epoch))
        = some [0, 86400, 2678400]
    ∧ ([0, 2678400, 86400] : List ℤ) ≠ [0, 86400, 2678400] := by
  refine ⟨?_, by simp [exMonth, stdParams, mkParams], by decide⟩
  simp [getForecastHour, getAllForecastFromApi, exMonth, stdParams, mkParams,
    processRecords, buildSample, processParam, initialParams, insertSample,
    elapsedOf, tdSeconds, pyInt, cloudinessOfOcta, rhe, round1, round2,
    hourLoop, hourUpdate]

/-- C8: each hourly output record is its source sample with every field
other than total_precipitation unchanged, and total_precipitation equal to
the sample's own mean_precipitation. -/
theorem hourly_frame (api : ApiResult) (od : List (ℕ × List SmhiForecast))
    (hod : getAllForecastFromApi api = some od) :
    getForecastHour api = some ((od.map (fun p => p.2.map hourUpdate)).flatten)
    ∧ ∀ s : SmhiForecast,
        (hourUpdate s).temperature = s.temperature
        ∧ (hourUpdate s).temperature_max = s.temperature_max
        ∧ (hourUpdate s).temperature_min = s.temperature_min
        ∧ (hourUpdate s).humidity = s.humidity
        ∧ (hourUpdate s).pressure = s.pressure
        ∧ (hourUpdate s).thunder = s.thunder
        ∧ (hourUpdate s).cloudiness = s.cloudiness
        ∧ (hourUpdate s).precipitation = s.precipitation
        ∧ (hourUpdate s).wind_direction = s.wind_direction
        ∧ (hourUpdate s).wind_speed = s.wind_speed
        ∧ (hourUpdate s).horizontal_visibility = s.horizontal_visibility
        ∧ (hourUpdate s).wind_gust = s.wind_gust
        ∧ (hourUpdate s).mean_precipitation = s.mean_precipitation
        ∧ (hourUpdate s).symbol = s.symbol
        ∧ (hourUpdate s).valid_time = s.valid_time
        ∧ (hourUpdate s).total_precipitation = s.mean_precipitation := by
  refine ⟨?_, fun s => ⟨rfl, rfl, rfl, rfl, rfl, rfl, rfl, rfl, rfl, rfl, rfl,
    rfl, rfl, rfl, rfl, rfl⟩⟩
  rw [getForecastHour, hod, Option.map_some', hourLoop_eq]

/-- Witness for C8 on the one-record document `exOne`. -/
theorem hourly_frame_witness :
    getForecastHour exOne
        = some (([((1 : ℕ), [sampleA])].map (fun p => p.2.map hourUpdate)).flatten)
    ∧ (hourUpdate sampleA).temperature = sampleA.temperature := by
  have hod : getAllForecastFromApi exOne = some [(1, [sampleA])] := by
    simp [getAllForecastFromApi, exOne, stdParams, mkParams, processRecords,
      buildSample, processParam, initialParams, insertSample, elapsedOf,
      tdSeconds, pyInt, cloudinessOfOcta, rhe, round1, round2, sampleA]
    norm_num [Int.fract]
  have h := hourly_frame exOne [(1, [sampleA])] hod
  exact ⟨h.1, (h.2 sampleA).1⟩

/-- C9: both forecast functions are deterministic — structurally identical
input documents produce structurally identical output sequences (the
engine is pure computation; it performs no I/O and reads but never writes
the input document). -/
theorem forecast_deterministic (a b : ApiResult) (h' : a = b) :
    getForecast a = getForecast b ∧ getForecastHour a = getForecastHour b := by
  subst h'
  exact ⟨rfl, rfl⟩

/-- Witness for C9 at the concrete document `exOne`. -/
theorem forecast_deterministic_witness :
    getForecast exOne = getForecast exOne
    ∧ getForecastHour exOne = getForecastHour exOne :=
  forecast_deterministic exOne exOne rfl

/-- C7: a tcc_mean octa value in [0,8] yields cloudiness
round(100 * octa / 8) (Python's round-half-to-even), anything else yields
100; in particular octa 4 yields 50 and octa 9 yields 100; and the
parameter extractor stores exactly this value in the state. -/
theorem cloudiness_conversion :
    (cloudinessOfOcta 0 = 0 ∧ cloudinessOfOcta 1 = 12 ∧ cloudinessOfOcta 2 = 25
      ∧ cloudinessOfOcta 3 = 38 ∧ cloudinessOfOcta 5 = 62
      ∧ cloudinessOfOcta 6 = 75 ∧ cloudinessOfOcta 7 = 88
      ∧ cloudinessOfOcta 8 = 100)
    ∧ (∀ octa : ℤ, octa < 0 ∨ 8 < octa → cloudinessOfOcta octa = 100)
    ∧ (∀ (st : ParamState) (v : ℚ),
        (processParam st ⟨"tcc_mean", v⟩).cloudiness
          = some (cloudinessOfOcta (pyInt v)))
    ∧ cloudinessOfOcta 4 = 50 ∧ cloudinessOfOcta 9 = 100 := by
  refine ⟨?_, ?_, ?_, ?_, ?_⟩
  · refine ⟨?_, ?_, ?_, ?_, ?_, ?_, ?_, ?_⟩ <;>
      norm_num [cloudinessOfOcta, rhe, Int.fract]
  · intro octa h
    have hno : ¬(0 ≤ octa ∧ octa ≤ 8) := by rcases h with h | h <;> omega
    rw [cloudinessOfOcta, if_neg hno]
  · intro st v
    rfl
  · norm_num [cloudinessOfOcta, rhe, Int.fract]
  · rw [cloudinessOfOcta, if_neg (by omega)]

/-- Witness for C7: the out-of-range and in-range hypotheses discharged at
octa = 9 and octa = 4. -/
theorem cloudiness_conversion_witness :
    cloudinessOfOcta 9 = 100 ∧ cloudinessOfOcta 4 = 50 := by
  have h := cloudiness_conversion
  exact ⟨h.2.1 9 (Or.inr (by norm_num)), h.2.2.2.1⟩

/-- C2 (code bug): the sample builder computes elapsed hours from
`timedelta.seconds`, which keeps only the sub-day component.  On `exGap`
(two records exactly 24 hours apart, both with pmean 1.0) the second
sample's total_precipitation is 0, not round(1.0 * 24, 2) = 24 as the
claimed full-difference formula requires. -/
theorem gap_precipitation_bug :
    (getAllForecastFromApi exGap).map
        (fun od => (od.map (fun p => p.2.map (fun f => f.total_precipitation))).flatten)
      = some [1, 0]
    ∧ tdSeconds ⟨86400, 2, 0⟩ ⟨0, 1, 0⟩ = 0
    ∧ round2 (1 * 24) = 24 := by
  refine ⟨?_, by norm_num [tdSeconds], by norm_num [round2, rhe, Int.fract]⟩
  simp [getAllForecastFromApi, exGap, stdParams, mkParams, processRecords,
    buildSample, processParam, initialParams, insertSample, elapsedOf,
    tdSeconds, pyInt, cloudinessOfOcta, rhe, round1, round2]

/-- C3 counterexample: a record after the first that is missing the
required parameter `t` does NOT make the forecast functions fail — the
engine silently reuses the previous record's value (both output
temperatures are 17 even though the second record carries none); and an
empty timeSeries does not fail either, it yields an empty result. -/
theorem missing_param_not_fatal :
    (getForecastHour exStale).map (List.map (fun f => f.temperature))
        = some [17, 17]
    ∧ getForecast ⟨some []⟩ = some []
    ∧ getForecastHour ⟨some []⟩ = some [] := by
  refine ⟨?_, rfl, rfl⟩
  simp [getForecastHour, getAllForecastFromApi, exStale, stdParams, mkParams,
    processRecords, buildSample, processParam, initialParams, insertSample,
    elapsedOf, tdSeconds, pyInt, cloudinessOfOcta, rhe, round1, round2,
    hourLoop, hourUpdate]

/-- C3 (amended): for any of the twelve required parameter names, a first
record carrying no parameter of that name makes both forecast functions
fail (UnboundLocalError), and a document without the timeSeries key fails
(KeyError); these are the only failures: an empty timeSeries returns an
empty result without error, a later record missing the name leaves the
name's carried loop-variable value unchanged (the previous record's value
is silently reused rather than a default synthesized), and once every
required name has been assigned no later record can fail, whatever
parameters it lacks. -/
theorem malformed_record_behavior (api : ApiResult) (r : RawTimePoint)
    (rest : List RawTimePoint) (nm : String)
    (hreq : nm ∈ requiredNames) :
    (api.timeSeries = some (r :: rest) → (∀ p ∈ r.parameters, p.name ≠ nm) →
      getForecast api = none ∧ getForecastHour api = none)
    ∧ (∀ a : ApiResult, a.timeSeries = none →
        getForecast a = none ∧ getForecastHour a = none)
    ∧ getForecast ⟨some []⟩ = some []
    ∧ getForecastHour ⟨some []⟩ = some []
    ∧ (∀ (r2 : RawTimePoint) (st : ParamState),
        (∀ p ∈ r2.parameters, p.name ≠ nm) →
          stateValue (r2.parameters.foldl processParam st) nm
            = stateValue st nm)
    ∧ (∀ (ts : List RawTimePoint) (st : ParamState) (lt : Option PyDateTime)
        (od : List (ℕ × List SmhiForecast)),
        (∀ m ∈ requiredNames, (stateValue st m).isSome = true) →
        (processRecords st lt od ts).isSome = true) := by
  refine ⟨fun hts hmiss =>
      getForecast_none_of_missing_required api r rest nm hts hreq hmiss,
    ?_, rfl, rfl, ?_, ?_⟩
  · intro a ha
    constructor
    · rw [getForecast, getAllForecastFromApi, ha]
      rfl
    · rw [getForecastHour, getAllForecastFromApi, ha]
      rfl
  · intro r2 st hm
    exact foldl_processParam_keeps (fun st => stateValue st nm) nm
      (fun st p h => stateValue_keeps st p nm h) r2.parameters st hm
  · intro ts st lt od h
    exact processRecords_isSome_of_all ts st lt od h

/-- Witness for C3 (amended) on the document `exMissingGust`, whose single
record carries eleven required parameters but not `gust`. -/
theorem malformed_record_behavior_witness :
    (getForecast exMissingGust = none ∧ getForecastHour exMissingGust = none)
    ∧ getForecast ⟨some []⟩ = some [] := by
  have h := malformed_record_behavior exMissingGust
      ⟨⟨0, 1, 0⟩, (mkParams 17 80 1010 10 4 1 0 1 5 180 10 8).filter
        (fun p => p.name ≠ "gust")⟩ [] "gust" (by simp [requiredNames])
  exact ⟨h.1 rfl (by decide), h.2.2.1⟩
